import Mathlib

/-!
Verification of the auth-user-service core (registration, login, JWT
issuance/refresh, email verification, password reset) against its
natural-language specification.

The embedding follows the Python source closely:
  * `app/models/user.py`      → `User`, `UserRole`
  * `app/crud/user.py`        → namespace `CRUDUser`
  * `app/core/security.py`    → JWT model (`TokenPayload`, `Jwt`) and helpers
  * `app/core/dependencies.py`→ namespace `Dependencies`
  * `app/services/token_service.py` → namespace `TokenService`
  * `app/services/auth_service.py`  → namespace `AuthService`
  * `app/services/user_service.py`  → namespace `UserService`
  * `app/api/v1/endpoints/password.py` → namespace `PasswordEndpoints`

Modelling conventions:
  * the SQLAlchemy session / `users` table is a `List User`; committing a
    mutated ORM object back is `commitUser` (replace the row with the same id);
  * `datetime.utcnow()` is an explicit `now : Nat` parameter (seconds);
    `timedelta(hours=h)` is `h * 3600`;
  * bcrypt hashing (`passlib`) is abstracted by explicit function parameters
    `hashPw : String → String` and `verifyPw : String → String → Bool`
    (plaintext → stored digest → Bool), since the claims only depend on
    whether verification hits or misses;
  * the cryptographically random `secrets.token_urlsafe` output is an
    explicit `String` parameter of each operation that generates a secret;
  * a JWT is a structure carrying its claims plus the key it was signed
    with; `jwt.decode` succeeds iff the key matches and `exp` has not passed;
  * `raise HTTPException(status_code, detail)` is `Except.error` of an
    `HTTPError` record; RabbitMQ publishes are collected in a `List Event`.
-/

/-- User roles (`app/models/user.py`, `UserRole`). -/
inductive UserRole where
  | usuario
  | adminParqueadero
deriving DecidableEq, Repr

/-- A row of the `users` table (`app/models/user.py`).  `id` is a `Nat`
standing for the UUID; nullable columns are `Option`s; `DateTime` columns
are `Nat` timestamps. -/
structure User where
  id : Nat
  name : String
  email : String
  password : String
  role : UserRole
  is_verified : Bool
  is_active : Bool
  verification_token : Option String
  verification_token_expires : Option Nat
  reset_token : Option String
  reset_token_expires : Option Nat
deriving DecidableEq, Repr

/-- The backing relation: the single `users` table. -/
abbrev Db := List User

/-- Payload of `UserCreate` (`app/schemas/user.py`). -/
structure UserCreate where
  email : String
  name : String
  password : String
  role : UserRole
deriving DecidableEq, Repr

/-- Payload of `UserUpdate` (`app/schemas/user.py`): optional fields;
`none` models a field absent from `model_dump(exclude_unset=True)`. -/
structure UserUpdate where
  name : Option String
  email : Option String
deriving DecidableEq, Repr

/-- `raise HTTPException(status_code=..., detail=...)`. -/
structure HTTPError where
  status_code : Nat
  detail : String
deriving DecidableEq, Repr

/-- Domain events published to RabbitMQ (`app/schemas/events.py`). -/
inductive Event where
  | emailVerification (user_id : Nat) (email name vtoken frontend_url : String)
  | welcome (user_id : Nat) (email name : String)
  | passwordReset (user_id : Nat) (email name rtoken frontend_url : String)
  | passwordChanged (user_id : Nat) (email name : String)
deriving DecidableEq, Repr

/- Defaults from `app/core/config.py`. -/
namespace Settings

def ACCESS_TOKEN_EXPIRE_MINUTES : Nat := 30

def REFRESH_TOKEN_EXPIRE_DAYS : Nat := 7

def VERIFICATION_TOKEN_EXPIRE_HOURS : Nat := 24

def PASSWORD_RESET_TOKEN_EXPIRE_HOURS : Nat := 1

def FRONTEND_URL : String := "http://localhost:3000"

end Settings

/-- Committing a mutated ORM object: the row with the same `id` is
overwritten in the table (`db.add(db_obj); db.commit()`). -/
def commitUser (db : Db) (u : User) : Db :=
  db.map (fun v => if v.id == u.id then u else v)

namespace CRUDUser

/-- `CRUDUser.get`: lookup by primary key. -/
def get (db : Db) (user_id : Nat) : Option User :=
  db.find? (fun u => u.id == user_id)

/-- `CRUDUser.get_by_email`. -/
def get_by_email (db : Db) (email : String) : Option User :=
  db.find? (fun u => u.email == email)

/-- `CRUDUser.get_by_verification_token`: string-equality match, then the
expiry is checked against `datetime.utcnow()` and an elapsed expiry is
treated as not found. -/
def get_by_verification_token (db : Db) (token : String) (now : Nat) :
    Option User :=
  match db.find? (fun u => u.verification_token == some token) with
  | none => none
  | some u =>
      match u.verification_token_expires with
      | some exp => if exp < now then none else some u
      | none => some u

/-- `CRUDUser.get_by_reset_token`: same expiry-aware lookup for the
password-reset secret. -/
def get_by_reset_token (db : Db) (token : String) (now : Nat) : Option User :=
  match db.find? (fun u => u.reset_token == some token) with
  | none => none
  | some u =>
      match u.reset_token_expires with
      | some exp => if exp < now then none else some u
      | none => some u

/-- `CRUDUser.create`: new row with defaults `is_verified=False`,
`is_active=True`, hashed password, no secrets.  The fresh UUID is the
explicit `newId`. -/
def create (db : Db) (hashPw : String → String) (newId : Nat)
    (obj_in : UserCreate) : Db × User :=
  let db_obj : User :=
    { id := newId
      name := obj_in.name
      email := obj_in.email
      password := hashPw obj_in.password
      role := obj_in.role
      is_verified := false
      is_active := true
      verification_token := none
      verification_token_expires := none
      reset_token := none
      reset_token_expires := none }
  (db ++ [db_obj], db_obj)

/-- Applying `model_dump(exclude_unset=True)` of a `UserUpdate` with
`setattr`: only the present fields change. -/
def applyUpdate (u : User) (obj_in : UserUpdate) : User :=
  let u1 := match obj_in.name with
    | some n => { u with name := n }
    | none => u
  match obj_in.email with
  | some e => { u1 with email := e }
  | none => u1

/-- `CRUDUser.update`. -/
def update (db : Db) (db_obj : User) (obj_in : UserUpdate) : Db × User :=
  let u := applyUpdate db_obj obj_in
  (commitUser db u, u)

/-- `CRUDUser.update_password`: stores the hash of the new password. -/
def update_password (db : Db) (hashPw : String → String) (db_obj : User)
    (new_password : String) : Db × User :=
  let u := { db_obj with password := hashPw new_password }
  (commitUser db u, u)

/-- `CRUDUser.set_verification_token`: secret and expiry set together. -/
def set_verification_token (db : Db) (db_obj : User) (token : String)
    (expires_hours : Nat) (now : Nat) : Db × User :=
  let u := { db_obj with
    verification_token := some token
    verification_token_expires := some (now + expires_hours * 3600) }
  (commitUser db u, u)

/-- `CRUDUser.verify_email`: marks verified and clears the secret pair in
the same commit. -/
def verify_email (db : Db) (db_obj : User) : Db × User :=
  let u := { db_obj with
    is_verified := true
    verification_token := none
    verification_token_expires := none }
  (commitUser db u, u)

/-- `CRUDUser.set_reset_token`: secret and expiry set together. -/
def set_reset_token (db : Db) (db_obj : User) (token : String)
    (expires_hours : Nat) (now : Nat) : Db × User :=
  let u := { db_obj with
    reset_token := some token
    reset_token_expires := some (now + expires_hours * 3600) }
  (commitUser db u, u)

/-- `CRUDUser.clear_reset_token`: clears the secret pair. -/
def clear_reset_token (db : Db) (db_obj : User) : Db × User :=
  let u := { db_obj with
    reset_token := none
    reset_token_expires := none }
  (commitUser db u, u)

/-- `CRUDUser.authenticate`: email lookup, then hash verification; `none`
both on a missing user and on a mismatching password. -/
def authenticate (verifyPw : String → String → Bool) (db : Db)
    (email password : String) : Option User :=
  match get_by_email db email with
  | none => none
  | some user => if verifyPw password user.password then some user else none

/-- `CRUDUser.is_active`. -/
def is_active (user : User) : Bool :=
  user.is_active

/-- `CRUDUser.is_verified`. -/
def is_verified (user : User) : Bool :=
  user.is_verified

/-- `CRUDUser.deactivate`. -/
def deactivate (db : Db) (db_obj : User) : Db × User :=
  let u := { db_obj with is_active := false }
  (commitUser db u, u)

/-- `CRUDUser.activate`. -/
def activate (db : Db) (db_obj : User) : Db × User :=
  let u := { db_obj with is_active := true }
  (commitUser db u, u)

end CRUDUser

/- `app/core/security.py`: JWT creation/decoding and type check. -/

/-- Decoded JWT claims; `sub` and `type` use `Option` because
`payload.get(...)` may find the key absent. -/
structure TokenPayload where
  sub : Option String
  exp : Nat
  type : Option String
deriving DecidableEq, Repr

/-- An encoded JWT: its claims plus the key it was signed with. -/
structure Jwt where
  payload : TokenPayload
  signedWith : String
deriving DecidableEq, Repr

/-- `create_access_token` with the default TTL (30 minutes). -/
def create_access_token (secret : String) (subject : String) (now : Nat) :
    Jwt :=
  { payload :=
      { sub := some subject
        exp := now + Settings.ACCESS_TOKEN_EXPIRE_MINUTES * 60
        type := some "access" }
    signedWith := secret }

/-- `create_refresh_token` with the default TTL (7 days). -/
def create_refresh_token (secret : String) (subject : String) (now : Nat) :
    Jwt :=
  { payload :=
      { sub := some subject
        exp := now + Settings.REFRESH_TOKEN_EXPIRE_DAYS * 86400
        type := some "refresh" }
    signedWith := secret }

/-- `decode_token`: the signature must verify (same key) and `exp` must not
have passed; otherwise `PyJWTError` is caught and `None` returned. -/
def decode_token (secret : String) (token : Jwt) (now : Nat) :
    Option TokenPayload :=
  if token.signedWith = secret ∧ now ≤ token.payload.exp then
    some token.payload
  else
    none

/-- `verify_token_type`: `payload.get("type") == expected_type`. -/
def verify_token_type (payload : TokenPayload) (expected_type : String) :
    Bool :=
  payload.type == some expected_type

/-- Digit-string parsing helper for `parseUserId`. -/
def digitsToNat : List Char → Nat → Option Nat
  | [], acc => some acc
  | c :: cs, acc =>
      if c.isDigit then digitsToNat cs (acc * 10 + (c.toNat - 48)) else none

/-- `UUID(user_id_str)` parsing, which may raise `ValueError`; ids are
modelled as `Nat`, so the parse succeeds exactly on nonempty digit
strings. -/
def parseUserId (s : String) : Option Nat :=
  match s.data with
  | [] => none
  | l => digitsToNat l 0

namespace Dependencies

/-- `get_current_user` (`app/core/dependencies.py`): decode, check the type
is `access`, extract and parse `sub`, then load the user. -/
def get_current_user (db : Db) (secret : String) (now : Nat) (token : Jwt) :
    Except HTTPError User :=
  match decode_token secret token now with
  | none => .error ⟨401, "Token inválido o expirado"⟩
  | some payload =>
    if verify_token_type payload "access" then
      match payload.sub with
      | none => .error ⟨401, "Token inválido"⟩
      | some user_id_str =>
        match parseUserId user_id_str with
        | none => .error ⟨401, "Token inválido"⟩
        | some user_id =>
          match CRUDUser.get db user_id with
          | none => .error ⟨401, "Usuario no encontrado"⟩
          | some user => .ok user
    else
      .error ⟨401, "Tipo de token incorrecto"⟩

/-- `get_current_active_user`: the `access` chain's `is_active` gate. -/
def get_current_active_user (db : Db) (secret : String) (now : Nat)
    (token : Jwt) : Except HTTPError User :=
  match get_current_user db secret now token with
  | .error e => .error e
  | .ok current_user =>
    if CRUDUser.is_active current_user then .ok current_user
    else .error ⟨403, "Usuario inactivo"⟩

/-- `get_current_verified_user`: the `is_verified` gate on top of the
active gate. -/
def get_current_verified_user (db : Db) (secret : String) (now : Nat)
    (token : Jwt) : Except HTTPError User :=
  match get_current_active_user db secret now token with
  | .error e => .error e
  | .ok current_user =>
    if CRUDUser.is_verified current_user then .ok current_user
    else .error ⟨403, "Email no verificado. Por favor verifica tu correo electrónico."⟩

/-- `validate_refresh_token`: decode, check the type is `refresh`, extract
and parse `sub`, load the user, and re-check `is_active`. -/
def validate_refresh_token (db : Db) (secret : String) (now : Nat)
    (token : Jwt) : Except HTTPError User :=
  match decode_token secret token now with
  | none => .error ⟨401, "Refresh token inválido o expirado"⟩
  | some payload =>
    if verify_token_type payload "refresh" then
      match payload.sub with
      | none => .error ⟨401, "Refresh token inválido"⟩
      | some user_id_str =>
        match parseUserId user_id_str with
        | none => .error ⟨401, "Refresh token inválido"⟩
        | some user_id =>
          match CRUDUser.get db user_id with
          | none => .error ⟨401, "Usuario no encontrado"⟩
          | some user =>
            if CRUDUser.is_active user then .ok user
            else .error ⟨403, "Usuario inactivo"⟩
    else
      .error ⟨401, "Tipo de token incorrecto. Se esperaba refresh token."⟩

end Dependencies

namespace TokenService

/-- `TokenService.create_verification_token`: generate a secret (the
explicit `token` parameter) and store it with the 24h default expiry. -/
def create_verification_token (db : Db) (user : User) (token : String)
    (now : Nat) : String × Db :=
  let r := CRUDUser.set_verification_token db user token
    Settings.VERIFICATION_TOKEN_EXPIRE_HOURS now
  (token, r.1)

/-- `TokenService.verify_email_token`: expiry-aware lookup; absent →
generic invalid/expired failure; already verified → failure with the user
and no state change; otherwise mark verified and clear the secret pair. -/
def verify_email_token (db : Db) (token : String) (now : Nat) :
    (Bool × String × Option User) × Db :=
  match CRUDUser.get_by_verification_token db token now with
  | none => ((false, "Token de verificación inválido o expirado", none), db)
  | some user =>
    if user.is_verified then
      ((false, "Este email ya ha sido verificado", some user), db)
    else
      let r := CRUDUser.verify_email db user
      ((true, "Email verificado exitosamente", some r.2), r.1)

/-- `TokenService.create_reset_token`: generate a secret and store it with
the 1h default expiry. -/
def create_reset_token (db : Db) (user : User) (token : String) (now : Nat) :
    String × Db :=
  let r := CRUDUser.set_reset_token db user token
    Settings.PASSWORD_RESET_TOKEN_EXPIRE_HOURS now
  (token, r.1)

/-- `TokenService.verify_reset_token`: pure validation, does not clear. -/
def verify_reset_token (db : Db) (token : String) (now : Nat) :
    Bool × String × Option User :=
  match CRUDUser.get_by_reset_token db token now with
  | none => (false, "Token de reset inválido o expirado", none)
  | some user => (true, "Token válido", some user)

/-- `TokenService.clear_reset_token`. -/
def clear_reset_token (db : Db) (user : User) : Db :=
  (CRUDUser.clear_reset_token db user).1

/-- `TokenService.resend_verification_token`: same as issuing, a fresh
secret overwrites the old one. -/
def resend_verification_token (db : Db) (user : User) (token : String)
    (now : Nat) : String × Db :=
  let r := CRUDUser.set_verification_token db user token
    Settings.VERIFICATION_TOKEN_EXPIRE_HOURS now
  (token, r.1)

end TokenService

namespace AuthService

/-- `AuthService.register_user`: duplicate-email check, create, issue a
verification secret (24h), publish the verification event.  `newId` is the
fresh UUID and `vtoken` the generated secret. -/
def register_user (hashPw : String → String) (db : Db) (newId : Nat)
    (vtoken : String) (now : Nat) (user_create : UserCreate) :
    Except HTTPError (Db × User × List Event) :=
  match CRUDUser.get_by_email db user_create.email with
  | some _ => .error ⟨400, "Este email ya está registrado"⟩
  | none =>
    let created := CRUDUser.create db hashPw newId user_create
    let issued := CRUDUser.set_verification_token created.1 created.2 vtoken
      Settings.VERIFICATION_TOKEN_EXPIRE_HOURS now
    let user := issued.2
    .ok (issued.1, user,
      [Event.emailVerification user.id user.email user.name vtoken
        Settings.FRONTEND_URL])

/-- `AuthService.login`: authenticate, then the `is_active` gate, then the
`is_verified` gate, then issue the access+refresh pair. -/
def login (verifyPw : String → String → Bool) (db : Db)
    (email password : String) (secret : String) (now : Nat) :
    Except HTTPError (Jwt × Jwt × User) :=
  match CRUDUser.authenticate verifyPw db email password with
  | none => .error ⟨401, "Email o contraseña incorrectos"⟩
  | some user =>
    if CRUDUser.is_active user then
      if CRUDUser.is_verified user then
        .ok (create_access_token secret (toString user.id) now,
             create_refresh_token secret (toString user.id) now, user)
      else
        .error ⟨403, "Email no verificado. Por favor verifica tu correo electrónico."⟩
    else
      .error ⟨403, "Usuario inactivo. Contacta con soporte."⟩

/-- `AuthService.refresh_access_token`: re-checks `is_active` only, then
issues a fresh access token. -/
def refresh_access_token (user : User) (secret : String) (now : Nat) :
    Except HTTPError Jwt :=
  if CRUDUser.is_active user then
    .ok (create_access_token secret (toString user.id) now)
  else
    .error ⟨403, "Usuario inactivo"⟩

/-- `AuthService.verify_email`: delegate to the token service; on failure
surface the message as a 400; on success publish the welcome event.  (The
`(true, _, none)` shape cannot be produced by `verify_email_token`; it
would be `user.id` on `None` in Python, modelled as a 500.) -/
def verify_email (db : Db) (token : String) (now : Nat) :
    Except HTTPError (Db × User × List Event) :=
  match TokenService.verify_email_token db token now with
  | ((false, message, _), _) => .error ⟨400, message⟩
  | ((true, _, some user), db1) =>
    .ok (db1, user, [Event.welcome user.id user.email user.name])
  | ((true, _, none), _) => .error ⟨500, "AttributeError"⟩

/-- `AuthService.resend_verification_email`: 404 on unknown email, 400 if
already verified, otherwise re-issue the secret and publish the event. -/
def resend_verification_email (db : Db) (email vtoken : String) (now : Nat) :
    Except HTTPError (Db × List Event) :=
  match CRUDUser.get_by_email db email with
  | none => .error ⟨404, "Usuario no encontrado"⟩
  | some user =>
    if user.is_verified then
      .error ⟨400, "Este email ya ha sido verificado"⟩
    else
      let issued := TokenService.resend_verification_token db user vtoken now
      .ok (issued.2,
        [Event.emailVerification user.id user.email user.name vtoken
          Settings.FRONTEND_URL])

/-- `AuthService.request_password_reset`: unknown email → silent no-op;
otherwise issue a reset secret (1h) and publish the event.  Returns the
new table and the published events. -/
def request_password_reset (db : Db) (email rtoken : String) (now : Nat) :
    Db × List Event :=
  match CRUDUser.get_by_email db email with
  | none => (db, [])
  | some user =>
    let issued := TokenService.create_reset_token db user rtoken now
    (issued.2,
      [Event.passwordReset user.id user.email user.name rtoken
        Settings.FRONTEND_URL])

/-- `AuthService.reset_password`: validate (without consuming), then update
the password hash, clear the reset secret, publish the changed event. -/
def reset_password (hashPw : String → String) (db : Db)
    (token new_password : String) (now : Nat) :
    Except HTTPError (Db × List Event) :=
  match TokenService.verify_reset_token db token now with
  | (false, message, _) => .error ⟨400, message⟩
  | (true, _, some user) =>
    let updated := CRUDUser.update_password db hashPw user new_password
    let cleared := CRUDUser.clear_reset_token updated.1 updated.2
    .ok (cleared.1,
      [Event.passwordChanged updated.2.id updated.2.email updated.2.name])
  | (true, _, none) => .error ⟨500, "AttributeError"⟩

end AuthService

namespace UserService

/-- `UserService.update_user_profile`: when the patch carries an email
different from the current one, reject taken emails and mark the user
unverified; then apply the patch fields. -/
def update_user_profile (db : Db) (user : User) (user_update : UserUpdate) :
    Except HTTPError (Db × User) :=
  match user_update.email with
  | some e =>
    if e ≠ user.email then
      match CRUDUser.get_by_email db e with
      | some _ => .error ⟨400, "Este email ya está en uso"⟩
      | none =>
        let u1 := { user with is_verified := false }
        .ok (CRUDUser.update db u1 user_update)
    else
      .ok (CRUDUser.update db user user_update)
  | none => .ok (CRUDUser.update db user user_update)

end UserService

namespace PasswordEndpoints

/-- `POST /password/forgot` (`app/api/v1/endpoints/password.py`): run the
service, then answer with a fixed message regardless of the outcome. -/
def forgot_password (db : Db) (email rtoken : String) (now : Nat) :
    String × Db × List Event :=
  let r := AuthService.request_password_reset db email rtoken now
  ("Si el email existe, recibirás instrucciones para recuperar tu contraseña.",
    r.1, r.2)

end PasswordEndpoints

namespace AuthEndpoints

/-- `POST /auth/refresh` (`app/api/v1/endpoints/auth.py`): the
`validate_refresh_token` dependency resolves the caller, then
`refresh_access_token` issues the new access token. -/
def refresh_token (db : Db) (secret : String) (now : Nat) (token : Jwt) :
    Except HTTPError Jwt :=
  match Dependencies.validate_refresh_token db secret now token with
  | .error e => .error e
  | .ok user => AuthService.refresh_access_token user secret now

end AuthEndpoints

/-- The spec invariant for one row: `is_verified=true` implies the
verification secret and its expiry are null. -/
def userInv (u : User) : Prop :=
  u.is_verified = true →
    u.verification_token = none ∧ u.verification_token_expires = none

instance (u : User) : Decidable (userInv u) := by
  unfold userInv
  infer_instance

/-- The invariant over the whole table. -/
def dbInv (db : Db) : Prop :=
  ∀ u ∈ db, userInv u

instance (db : Db) : Decidable (dbInv db) := by
  unfold dbInv
  exact List.decidableBAll userInv db

/- Concrete fixtures used to instantiate the theorems. -/
namespace Fixtures

/-- A concrete stand-in for bcrypt at evaluation points: digests are the
plaintext tagged with a prefix. -/
def hashF : String → String := fun p => "h:" ++ p

/-- The matching verifier: a digest verifies iff it is the tagged
plaintext. -/
def verifyF : String → String → Bool := fun p d => d == "h:" ++ p

def ana : User :=
  { id := 1
    name := "Ana"
    email := "ana@x.com"
    password := "h:Abcd1234"
    role := .usuario
    is_verified := false
    is_active := true
    verification_token := some "vsec1"
    verification_token_expires := some 1000
    reset_token := none
    reset_token_expires := none }

def anaVerified : User :=
  { ana with
    is_verified := true
    verification_token := none
    verification_token_expires := none }

def bobInactive : User :=
  { id := 2
    name := "Bob"
    email := "bob@x.com"
    password := "h:Pass1234"
    role := .usuario
    is_verified := false
    is_active := false
    verification_token := none
    verification_token_expires := none
    reset_token := some "rsec1"
    reset_token_expires := some 2000 }

def carolExpired : User :=
  { id := 3
    name := "Carol"
    email := "carol@x.com"
    password := "h:Qwer1234"
    role := .usuario
    is_verified := false
    is_active := true
    verification_token := some "esec"
    verification_token_expires := some 10
    reset_token := some "esec"
    reset_token_expires := some 10 }

end Fixtures

/- Shared helper lemmas about the table model and the lookups. -/

theorem mem_commitUser {db : Db} {u v : User} (h : v ∈ commitUser db u) :
    v = u ∨ (v ∈ db ∧ v.id ≠ u.id) := by
  unfold commitUser at h
  rw [List.mem_map] at h
  obtain ⟨w, hw, hv⟩ := h
  by_cases hid : (w.id == u.id) = true
  · rw [if_pos hid] at hv
    exact Or.inl hv.symm
  · rw [if_neg hid] at hv
    subst hv
    exact Or.inr ⟨hw, by simpa using hid⟩

theorem dbInv_commitUser {db : Db} {u : User} (h : dbInv db) (hu : userInv u) :
    dbInv (commitUser db u) := by
  intro v hv
  rcases mem_commitUser hv with rfl | ⟨hmem, _⟩
  · exact hu
  · exact h v hmem

theorem dbInv_append_singleton {db : Db} {u : User} (h : dbInv db)
    (hu : userInv u) : dbInv (db ++ [u]) := by
  intro v hv
  rw [List.mem_append] at hv
  rcases hv with hv | hv
  · exact h v hv
  · rw [List.mem_singleton] at hv
    subst hv
    exact hu

theorem get_by_email_some {db : Db} {email : String} {u : User}
    (h : CRUDUser.get_by_email db email = some u) :
    u ∈ db ∧ u.email = email := by
  unfold CRUDUser.get_by_email at h
  exact ⟨List.mem_of_find?_eq_some h, by simpa using List.find?_some h⟩

theorem get_by_verification_token_some {db : Db} {s : String} {now : Nat}
    {u : User} (h : CRUDUser.get_by_verification_token db s now = some u) :
    u ∈ db ∧ u.verification_token = some s := by
  unfold CRUDUser.get_by_verification_token at h
  cases hf : db.find? (fun v => v.verification_token == some s) with
  | none => rw [hf] at h; cases h
  | some w =>
    rw [hf] at h
    have hw1 := List.mem_of_find?_eq_some hf
    have hw2 : w.verification_token = some s := by
      simpa using List.find?_some hf
    cases he : w.verification_token_expires with
    | none =>
      simp [he] at h
      subst h
      exact ⟨hw1, hw2⟩
    | some e =>
      simp [he] at h
      obtain ⟨hle, h2⟩ := h
      subst h2
      exact ⟨hw1, hw2⟩

theorem get_by_reset_token_some {db : Db} {s : String} {now : Nat}
    {u : User} (h : CRUDUser.get_by_reset_token db s now = some u) :
    u ∈ db ∧ u.reset_token = some s := by
  unfold CRUDUser.get_by_reset_token at h
  cases hf : db.find? (fun v => v.reset_token == some s) with
  | none => rw [hf] at h; cases h
  | some w =>
    rw [hf] at h
    have hw1 := List.mem_of_find?_eq_some hf
    have hw2 : w.reset_token = some s := by
      simpa using List.find?_some hf
    cases he : w.reset_token_expires with
    | none =>
      simp [he] at h
      subst h
      exact ⟨hw1, hw2⟩
    | some e =>
      simp [he] at h
      obtain ⟨hle, h2⟩ := h
      subst h2
      exact ⟨hw1, hw2⟩

theorem get_by_verification_token_none {db : Db} {s : String} {now : Nat}
    (h : ∀ v ∈ db, v.verification_token = some s →
         ∃ e, v.verification_token_expires = some e ∧ e < now) :
    CRUDUser.get_by_verification_token db s now = none := by
  unfold CRUDUser.get_by_verification_token
  cases hf : db.find? (fun v => v.verification_token == some s) with
  | none => rfl
  | some w =>
    have hw1 := List.mem_of_find?_eq_some hf
    have hw2 : w.verification_token = some s := by
      simpa using List.find?_some hf
    obtain ⟨e, he, hlt⟩ := h w hw1 hw2
    simp [he, hlt]

theorem get_by_reset_token_none {db : Db} {s : String} {now : Nat}
    (h : ∀ v ∈ db, v.reset_token = some s →
         ∃ e, v.reset_token_expires = some e ∧ e < now) :
    CRUDUser.get_by_reset_token db s now = none := by
  unfold CRUDUser.get_by_reset_token
  cases hf : db.find? (fun v => v.reset_token == some s) with
  | none => rfl
  | some w =>
    have hw1 := List.mem_of_find?_eq_some hf
    have hw2 : w.reset_token = some s := by
      simpa using List.find?_some hf
    obtain ⟨e, he, hlt⟩ := h w hw1 hw2
    simp [he, hlt]

theorem applyUpdate_frame (u : User) (p : UserUpdate) :
    (CRUDUser.applyUpdate u p).id = u.id ∧
    (CRUDUser.applyUpdate u p).password = u.password ∧
    (CRUDUser.applyUpdate u p).role = u.role ∧
    (CRUDUser.applyUpdate u p).is_verified = u.is_verified ∧
    (CRUDUser.applyUpdate u p).is_active = u.is_active ∧
    (CRUDUser.applyUpdate u p).verification_token = u.verification_token ∧
    (CRUDUser.applyUpdate u p).verification_token_expires =
      u.verification_token_expires ∧
    (CRUDUser.applyUpdate u p).reset_token = u.reset_token ∧
    (CRUDUser.applyUpdate u p).reset_token_expires = u.reset_token_expires := by
  unfold CRUDUser.applyUpdate
  cases p.name <;> cases p.email <;> simp

theorem applyUpdate_name (u : User) (p : UserUpdate) :
    (p.name = none → (CRUDUser.applyUpdate u p).name = u.name) ∧
    (∀ n, p.name = some n → (CRUDUser.applyUpdate u p).name = n) := by
  unfold CRUDUser.applyUpdate
  cases hn : p.name <;> cases he : p.email <;> simp

theorem applyUpdate_email (u : User) (p : UserUpdate) :
    (p.email = none → (CRUDUser.applyUpdate u p).email = u.email) ∧
    (∀ e, p.email = some e → (CRUDUser.applyUpdate u p).email = e) := by
  unfold CRUDUser.applyUpdate
  cases hn : p.name <;> cases he : p.email <;> simp

/-- Claim C3: Login(email, password) fails with InvalidCredentialsError when
authenticate misses; otherwise an inactive user fails with
AccountInactiveError, and only an active but unverified user fails with
EmailNotVerifiedError (inactive check strictly before verification check);
tokens are issued only when both gates pass.  In particular an inactive,
unverified user with correct credentials gets AccountInactiveError. -/
theorem C3_login_gate_order (verifyPw : String → String → Bool) (db : Db)
    (email password secret : String) (now : Nat) :
    (CRUDUser.authenticate verifyPw db email password = none →
      AuthService.login verifyPw db email password secret now =
        .error ⟨401, "Email o contraseña incorrectos"⟩) ∧
    (∀ user, CRUDUser.authenticate verifyPw db email password = some user →
      (user.is_active = false →
        AuthService.login verifyPw db email password secret now =
          .error ⟨403, "Usuario inactivo. Contacta con soporte."⟩) ∧
      (user.is_active = true → user.is_verified = false →
        AuthService.login verifyPw db email password secret now =
          .error ⟨403, "Email no verificado. Por favor verifica tu correo electrónico."⟩) ∧
      (user.is_active = true → user.is_verified = true →
        AuthService.login verifyPw db email password secret now =
          .ok (create_access_token secret (toString user.id) now,
               create_refresh_token secret (toString user.id) now, user))) := by
  constructor
  · intro h
    unfold AuthService.login
    rw [h]
  · intro user h
    refine ⟨?_, ?_, ?_⟩
    · intro ha
      unfold AuthService.login
      rw [h]
      simp [CRUDUser.is_active, ha]
    · intro ha hv
      unfold AuthService.login
      rw [h]
      simp [CRUDUser.is_active, CRUDUser.is_verified, ha, hv]
    · intro ha hv
      unfold AuthService.login
      rw [h]
      simp [CRUDUser.is_active, CRUDUser.is_verified, ha, hv]

/-- Witness for C3: a concrete inactive, unverified user with correct
credentials is rejected with the inactive error. -/
theorem C3_login_gate_order_witness :
    AuthService.login Fixtures.verifyF [Fixtures.bobInactive] "bob@x.com"
      "Pass1234" "k" 100 =
      .error ⟨403, "Usuario inactivo. Contacta con soporte."⟩ :=
  ((C3_login_gate_order Fixtures.verifyF [Fixtures.bobInactive] "bob@x.com"
      "Pass1234" "k" 100).2 Fixtures.bobInactive (by decide)).1 (by decide)

/-- Claim C7: authenticate returns absent both when no user has the email
and when the stored hash does not verify, and in both runs Login raises the
same error with the same message. -/
theorem C7_invalid_credentials_uniform (verifyPw : String → String → Bool)
    (db : Db) (email password secret : String) (now : Nat) (u : User) :
    (CRUDUser.get_by_email db email = none →
      CRUDUser.authenticate verifyPw db email password = none ∧
      AuthService.login verifyPw db email password secret now =
        .error ⟨401, "Email o contraseña incorrectos"⟩) ∧
    (CRUDUser.get_by_email db email = some u →
      verifyPw password u.password = false →
      CRUDUser.authenticate verifyPw db email password = none ∧
      AuthService.login verifyPw db email password secret now =
        .error ⟨401, "Email o contraseña incorrectos"⟩) := by
  constructor
  · intro h
    have hauth : CRUDUser.authenticate verifyPw db email password = none := by
      unfold CRUDUser.authenticate
      rw [h]
    refine ⟨hauth, ?_⟩
    unfold AuthService.login
    rw [hauth]
  · intro h hv
    have hauth : CRUDUser.authenticate verifyPw db email password = none := by
      unfold CRUDUser.authenticate
      rw [h]
      simp [hv]
    refine ⟨hauth, ?_⟩
    unfold AuthService.login
    rw [hauth]

/-- Witness for C7: with one concrete stored user, an unknown email and a
wrong password produce the same login error. -/
theorem C7_invalid_credentials_uniform_witness :
    CRUDUser.authenticate Fixtures.verifyF [Fixtures.anaVerified]
      "nobody@x.com" "Abcd1234" = none ∧
    AuthService.login Fixtures.verifyF [Fixtures.anaVerified] "ana@x.com"
      "Wrong999x" "k" 5 = .error ⟨401, "Email o contraseña incorrectos"⟩ :=
  ⟨((C7_invalid_credentials_uniform Fixtures.verifyF [Fixtures.anaVerified]
      "nobody@x.com" "Abcd1234" "k" 5 Fixtures.anaVerified).1 (by decide)).1,
   ((C7_invalid_credentials_uniform Fixtures.verifyF [Fixtures.anaVerified]
      "ana@x.com" "Wrong999x" "k" 5 Fixtures.anaVerified).2 (by decide)
      (by decide)).2⟩

/-- Claim C5: a well-formed, unexpired, correctly signed token of the wrong
type is rejected with WrongTokenTypeError: an access token on the refresh
path and a refresh token on the protected-resource path both fail after
signature verification and before any user lookup (the result does not
depend on the table). -/
theorem C5_wrong_token_type_rejected (secret : String) (now : Nat)
    (token : Jwt) (hsig : token.signedWith = secret)
    (hexp : now ≤ token.payload.exp) :
    (token.payload.type = some "access" →
      ∀ db : Db, Dependencies.validate_refresh_token db secret now token =
        .error ⟨401, "Tipo de token incorrecto. Se esperaba refresh token."⟩) ∧
    (token.payload.type = some "refresh" →
      ∀ db : Db, Dependencies.get_current_user db secret now token =
        .error ⟨401, "Tipo de token incorrecto"⟩) := by
  have hdec : decode_token secret token now = some token.payload := by
    unfold decode_token
    rw [if_pos ⟨hsig, hexp⟩]
  constructor
  · intro ht db
    unfold Dependencies.validate_refresh_token
    rw [hdec]
    simp [verify_token_type, ht]
  · intro ht db
    unfold Dependencies.get_current_user
    rw [hdec]
    simp [verify_token_type, ht]

/-- Witness for C5: concrete signed, unexpired tokens of each wrong type
are rejected on an arbitrary concrete table. -/
theorem C5_wrong_token_type_rejected_witness :
    Dependencies.validate_refresh_token [Fixtures.ana] "k" 50
      { payload := { sub := some "1", exp := 100, type := some "access" },
        signedWith := "k" } =
      .error ⟨401, "Tipo de token incorrecto. Se esperaba refresh token."⟩ ∧
    Dependencies.get_current_user [Fixtures.ana] "k" 50
      { payload := { sub := some "1", exp := 100, type := some "refresh" },
        signedWith := "k" } =
      .error ⟨401, "Tipo de token incorrecto"⟩ :=
  ⟨(C5_wrong_token_type_rejected "k" 50
      { payload := { sub := some "1", exp := 100, type := some "access" },
        signedWith := "k" } rfl (by decide)).1 rfl [Fixtures.ana],
   (C5_wrong_token_type_rejected "k" 50
      { payload := { sub := some "1", exp := 100, type := some "refresh" },
        signedWith := "k" } rfl (by decide)).2 rfl [Fixtures.ana]⟩

/-- Claim C4: with a valid refresh token, the refresh endpoint fails with
AccountInactiveError whenever the resolved user is inactive, and otherwise
issues a new access token without checking is_verified. -/
theorem C4_refresh_rechecks_active_only (db : Db) (secret : String)
    (now : Nat) (token : Jwt) (s : String) (uid : Nat) (user : User)
    (hsig : token.signedWith = secret) (hexp : now ≤ token.payload.exp)
    (htype : token.payload.type = some "refresh")
    (hsub : token.payload.sub = some s) (hparse : parseUserId s = some uid)
    (hget : CRUDUser.get db uid = some user) :
    (user.is_active = false →
      AuthEndpoints.refresh_token db secret now token =
        .error ⟨403, "Usuario inactivo"⟩) ∧
    (user.is_active = true →
      AuthEndpoints.refresh_token db secret now token =
        .ok (create_access_token secret (toString user.id) now)) := by
  have hdec : decode_token secret token now = some token.payload := by
    unfold decode_token
    rw [if_pos ⟨hsig, hexp⟩]
  have hvt : verify_token_type token.payload "refresh" = true := by
    simp [verify_token_type, htype]
  constructor
  · intro ha
    unfold AuthEndpoints.refresh_token Dependencies.validate_refresh_token
    rw [hdec]
    simp [hvt, hsub, hparse, hget, CRUDUser.is_active, ha]
  · intro ha
    unfold AuthEndpoints.refresh_token Dependencies.validate_refresh_token
      AuthService.refresh_access_token
    rw [hdec]
    simp [hvt, hsub, hparse, hget, CRUDUser.is_active, ha]

/-- Witness for C4: an active but unverified concrete user refreshes
successfully; an inactive one is rejected. -/
theorem C4_refresh_rechecks_active_only_witness :
    AuthEndpoints.refresh_token [Fixtures.ana, Fixtures.bobInactive] "k" 50
      { payload := { sub := some "1", exp := 100, type := some "refresh" },
        signedWith := "k" } =
      .ok (create_access_token "k" "1" 50) ∧
    AuthEndpoints.refresh_token [Fixtures.ana, Fixtures.bobInactive] "k" 50
      { payload := { sub := some "2", exp := 100, type := some "refresh" },
        signedWith := "k" } =
      .error ⟨403, "Usuario inactivo"⟩ :=
  ⟨(C4_refresh_rechecks_active_only [Fixtures.ana, Fixtures.bobInactive] "k"
      50 { payload := { sub := some "1", exp := 100, type := some "refresh" },
           signedWith := "k" } "1" 1 Fixtures.ana rfl (by decide) rfl rfl
      (by decide) (by decide)).2 rfl,
   (C4_refresh_rechecks_active_only [Fixtures.ana, Fixtures.bobInactive] "k"
      50 { payload := { sub := some "2", exp := 100, type := some "refresh" },
           signedWith := "k" } "2" 2 Fixtures.bobInactive rfl (by decide) rfl
      rfl (by decide) (by decide)).1 rfl⟩

/-- Claim C6: RequestPasswordReset for an unknown email returns success,
mutates nothing, publishes nothing, and is observably identical to the
existing-email case (the endpoint answer is the same fixed message). -/
theorem C6_reset_request_no_enumeration (db db2 : Db)
    (email email2 rtoken rtoken2 : String) (now now2 : Nat)
    (habsent : CRUDUser.get_by_email db email = none) :
    AuthService.request_password_reset db email rtoken now = (db, []) ∧
    (PasswordEndpoints.forgot_password db email rtoken now).1 =
      (PasswordEndpoints.forgot_password db2 email2 rtoken2 now2).1 := by
  constructor
  · unfold AuthService.request_password_reset
    rw [habsent]
  · rfl

/-- Witness for C6: a concrete unknown email leaves the table untouched,
and the endpoint message equals the one for a concrete known email. -/
theorem C6_reset_request_no_enumeration_witness :
    AuthService.request_password_reset [Fixtures.anaVerified] "ghost@x.com"
      "r1" 100 = ([Fixtures.anaVerified], []) ∧
    (PasswordEndpoints.forgot_password [Fixtures.anaVerified] "ghost@x.com"
      "r1" 100).1 =
      (PasswordEndpoints.forgot_password [Fixtures.anaVerified] "ana@x.com"
        "r2" 200).1 :=
  C6_reset_request_no_enumeration [Fixtures.anaVerified] [Fixtures.anaVerified]
    "ghost@x.com" "ana@x.com" "r1" "r2" 100 200 (by decide)

/-- Claim C2: a stored one-time secret (verification or reset) never
resolves once its expiry has elapsed or it has been consumed (cleared),
even with the exact original string, and after a second secret of the same
kind is issued for the same user the first string no longer resolves. -/
theorem C2_secret_lookup_lifecycle (db : Db) (u : User)
    (sExp sOwn sNew : String) (now tIssue : Nat)
    (hExpV : ∀ v ∈ db, v.verification_token = some sExp →
      ∃ e, v.verification_token_expires = some e ∧ e < now)
    (hExpR : ∀ v ∈ db, v.reset_token = some sExp →
      ∃ e, v.reset_token_expires = some e ∧ e < now)
    (hOwnV : ∀ v ∈ db, v.id ≠ u.id → v.verification_token ≠ some sOwn)
    (hOwnR : ∀ v ∈ db, v.id ≠ u.id → v.reset_token ≠ some sOwn)
    (hNew : sOwn ≠ sNew) :
    CRUDUser.get_by_verification_token db sExp now = none ∧
    CRUDUser.get_by_reset_token db sExp now = none ∧
    CRUDUser.get_by_verification_token (CRUDUser.verify_email db u).1
      sOwn now = none ∧
    CRUDUser.get_by_reset_token (CRUDUser.clear_reset_token db u).1
      sOwn now = none ∧
    CRUDUser.get_by_verification_token
      (CRUDUser.set_verification_token db u sNew
        Settings.VERIFICATION_TOKEN_EXPIRE_HOURS tIssue).1 sOwn now = none ∧
    CRUDUser.get_by_reset_token
      (CRUDUser.set_reset_token db u sNew
        Settings.PASSWORD_RESET_TOKEN_EXPIRE_HOURS tIssue).1 sOwn now = none := by
  refine ⟨get_by_verification_token_none hExpV,
    get_by_reset_token_none hExpR, ?_, ?_, ?_, ?_⟩
  · apply get_by_verification_token_none
    intro v hv htok
    exfalso
    have hv2 : v ∈ commitUser db
        { u with
          is_verified := true
          verification_token := none
          verification_token_expires := none } := hv
    rcases mem_commitUser hv2 with rfl | ⟨hmem, hid⟩
    · exact Option.noConfusion htok
    · exact hOwnV v hmem hid htok
  · apply get_by_reset_token_none
    intro v hv htok
    exfalso
    have hv2 : v ∈ commitUser db
        { u with
          reset_token := none
          reset_token_expires := none } := hv
    rcases mem_commitUser hv2 with rfl | ⟨hmem, hid⟩
    · exact Option.noConfusion htok
    · exact hOwnR v hmem hid htok
  · apply get_by_verification_token_none
    intro v hv htok
    exfalso
    have hv2 : v ∈ commitUser db
        { u with
          verification_token := some sNew
          verification_token_expires :=
            some (tIssue + Settings.VERIFICATION_TOKEN_EXPIRE_HOURS * 3600) } :=
      hv
    rcases mem_commitUser hv2 with rfl | ⟨hmem, hid⟩
    · exact hNew (Option.some.inj htok).symm
    · exact hOwnV v hmem hid htok
  · apply get_by_reset_token_none
    intro v hv htok
    exfalso
    have hv2 : v ∈ commitUser db
        { u with
          reset_token := some sNew
          reset_token_expires :=
            some (tIssue + Settings.PASSWORD_RESET_TOKEN_EXPIRE_HOURS * 3600) } :=
      hv
    rcases mem_commitUser hv2 with rfl | ⟨hmem, hid⟩
    · exact hNew (Option.some.inj htok).symm
    · exact hOwnR v hmem hid htok

/-- Witness for C2: a concrete table with an expired secret holder and a
live owner; all six lookup conclusions evaluate to absent. -/
theorem C2_secret_lookup_lifecycle_witness :
    CRUDUser.get_by_verification_token [Fixtures.carolExpired, Fixtures.ana]
      "esec" 500 = none ∧
    CRUDUser.get_by_reset_token [Fixtures.carolExpired, Fixtures.ana]
      "esec" 500 = none ∧
    CRUDUser.get_by_verification_token
      (CRUDUser.verify_email [Fixtures.carolExpired, Fixtures.ana]
        Fixtures.ana).1 "vsec1" 500 = none ∧
    CRUDUser.get_by_reset_token
      (CRUDUser.clear_reset_token [Fixtures.carolExpired, Fixtures.ana]
        Fixtures.ana).1 "vsec1" 500 = none ∧
    CRUDUser.get_by_verification_token
      (CRUDUser.set_verification_token [Fixtures.carolExpired, Fixtures.ana]
        Fixtures.ana "v2" Settings.VERIFICATION_TOKEN_EXPIRE_HOURS 500).1
      "vsec1" 500 = none ∧
    CRUDUser.get_by_reset_token
      (CRUDUser.set_reset_token [Fixtures.carolExpired, Fixtures.ana]
        Fixtures.ana "v2" Settings.PASSWORD_RESET_TOKEN_EXPIRE_HOURS 500).1
      "vsec1" 500 = none :=
  C2_secret_lookup_lifecycle [Fixtures.carolExpired, Fixtures.ana]
    Fixtures.ana "esec" "vsec1" "v2" 500 500
    (by
      intro v hv htok
      rcases List.mem_cons.mp hv with rfl | hv2
      · exact ⟨10, rfl, by decide⟩
      · rcases List.mem_cons.mp hv2 with rfl | hv3
        · exact absurd htok (by decide)
        · cases hv3)
    (by
      intro v hv htok
      rcases List.mem_cons.mp hv with rfl | hv2
      · exact ⟨10, rfl, by decide⟩
      · rcases List.mem_cons.mp hv2 with rfl | hv3
        · exact absurd htok (by decide)
        · cases hv3)
    (by
      intro v hv hid
      rcases List.mem_cons.mp hv with rfl | hv2
      · decide
      · rcases List.mem_cons.mp hv2 with rfl | hv3
        · exact absurd rfl hid
        · cases hv3)
    (by
      intro v hv hid
      rcases List.mem_cons.mp hv with rfl | hv2
      · decide
      · rcases List.mem_cons.mp hv2 with rfl | hv3
        · exact absurd rfl hid
        · cases hv3)
    (by decide)

/-- Claim C1 counterexample: for a concrete unverified user holding secret
"vsec1", the first VerifyEmail call succeeds, but the second call with the
same secret string returns the generic invalid/expired failure with no
resolved user — not the claimed AlreadyVerifiedError triple — because the
first call cleared the secret and the lookup now misses. -/
theorem C1_counterexample :
    (TokenService.verify_email_token [Fixtures.ana] "vsec1" 500).1.1 = true ∧
    TokenService.verify_email_token
        (TokenService.verify_email_token [Fixtures.ana] "vsec1" 500).2
        "vsec1" 500 =
      ((false, "Token de verificación inválido o expirado", none),
       (TokenService.verify_email_token [Fixtures.ana] "vsec1" 500).2) := by
  decide

/-- Claim C1 (amended): the first VerifyEmail call with a live secret on an
unverified user sets is_verified and clears the secret pair; the second
call with the same secret string fails with the generic invalid/expired
result (false, "Token de verificación inválido o expirado", none) and no
state change — not with the already-verified result, whose branch only
fires when a resolved user is already verified while still holding the
secret. -/
theorem C1_second_verify_fails_generic (db : Db) (u : User) (s : String)
    (now : Nat)
    (hget : CRUDUser.get_by_verification_token db s now = some u)
    (hunv : u.is_verified = false)
    (hOwn : ∀ v ∈ db, v.id ≠ u.id → v.verification_token ≠ some s) :
    TokenService.verify_email_token db s now =
      ((true, "Email verificado exitosamente",
        some (CRUDUser.verify_email db u).2), (CRUDUser.verify_email db u).1) ∧
    (CRUDUser.verify_email db u).2.is_verified = true ∧
    (CRUDUser.verify_email db u).2.verification_token = none ∧
    (CRUDUser.verify_email db u).2.verification_token_expires = none ∧
    TokenService.verify_email_token
        (TokenService.verify_email_token db s now).2 s now =
      ((false, "Token de verificación inválido o expirado", none),
       (TokenService.verify_email_token db s now).2) := by
  have hfirst : TokenService.verify_email_token db s now =
      ((true, "Email verificado exitosamente",
        some (CRUDUser.verify_email db u).2),
       (CRUDUser.verify_email db u).1) := by
    unfold TokenService.verify_email_token
    rw [hget]
    simp [hunv]
  have hlook2 : CRUDUser.get_by_verification_token
      (CRUDUser.verify_email db u).1 s now = none := by
    apply get_by_verification_token_none
    intro v hv htok
    exfalso
    have hv2 : v ∈ commitUser db
        { u with
          is_verified := true
          verification_token := none
          verification_token_expires := none } := hv
    rcases mem_commitUser hv2 with rfl | ⟨hmem, hid⟩
    · exact Option.noConfusion htok
    · exact hOwn v hmem hid htok
  refine ⟨hfirst, rfl, rfl, rfl, ?_⟩
  rw [hfirst]
  unfold TokenService.verify_email_token
  rw [hlook2]

/-- Witness for the amended C1 at the concrete table of the
counterexample. -/
theorem C1_second_verify_fails_generic_witness :
    TokenService.verify_email_token [Fixtures.ana] "vsec1" 500 =
      ((true, "Email verificado exitosamente",
        some (CRUDUser.verify_email [Fixtures.ana] Fixtures.ana).2),
       (CRUDUser.verify_email [Fixtures.ana] Fixtures.ana).1) ∧
    (CRUDUser.verify_email [Fixtures.ana] Fixtures.ana).2.is_verified = true ∧
    (CRUDUser.verify_email [Fixtures.ana] Fixtures.ana).2.verification_token =
      none ∧
    (CRUDUser.verify_email [Fixtures.ana]
        Fixtures.ana).2.verification_token_expires = none ∧
    TokenService.verify_email_token
        (TokenService.verify_email_token [Fixtures.ana] "vsec1" 500).2
        "vsec1" 500 =
      ((false, "Token de verificación inválido o expirado", none),
       (TokenService.verify_email_token [Fixtures.ana] "vsec1" 500).2) :=
  C1_second_verify_fails_generic [Fixtures.ana] Fixtures.ana "vsec1" 500
    (by decide) (by decide)
    (by
      intro v hv hid
      rcases List.mem_singleton.mp hv with rfl
      exact absurd rfl hid)

/-- Claim C9: the password-reset flow is not gated on account state — for
any resolved user, whatever is_active and is_verified are,
RequestPasswordReset issues a reset secret and ResetPassword with a valid
secret updates the password hash and clears the secret pair, leaving the
account flags untouched. -/
theorem C9_reset_flow_not_gated (hashPw : String → String) (db : Db)
    (email rnew rold new_password : String) (now : Nat) (u w : User)
    (hfound : CRUDUser.get_by_email db email = some u)
    (hvalid : CRUDUser.get_by_reset_token db rold now = some w) :
    AuthService.request_password_reset db email rnew now =
      ((CRUDUser.set_reset_token db u rnew
          Settings.PASSWORD_RESET_TOKEN_EXPIRE_HOURS now).1,
       [Event.passwordReset u.id u.email u.name rnew
          Settings.FRONTEND_URL]) ∧
    (CRUDUser.set_reset_token db u rnew
        Settings.PASSWORD_RESET_TOKEN_EXPIRE_HOURS now).2.reset_token =
      some rnew ∧
    AuthService.reset_password hashPw db rold new_password now =
      .ok ((CRUDUser.clear_reset_token
              (CRUDUser.update_password db hashPw w new_password).1
              (CRUDUser.update_password db hashPw w new_password).2).1,
           [Event.passwordChanged w.id w.email w.name]) ∧
    (CRUDUser.clear_reset_token
        (CRUDUser.update_password db hashPw w new_password).1
        (CRUDUser.update_password db hashPw w new_password).2).2.password =
      hashPw new_password ∧
    (CRUDUser.clear_reset_token
        (CRUDUser.update_password db hashPw w new_password).1
        (CRUDUser.update_password db hashPw w new_password).2).2.reset_token =
      none ∧
    (CRUDUser.clear_reset_token
        (CRUDUser.update_password db hashPw w new_password).1
        (CRUDUser.update_password db hashPw w
          new_password).2).2.reset_token_expires = none ∧
    (CRUDUser.clear_reset_token
        (CRUDUser.update_password db hashPw w new_password).1
        (CRUDUser.update_password db hashPw w new_password).2).2.is_active =
      w.is_active ∧
    (CRUDUser.clear_reset_token
        (CRUDUser.update_password db hashPw w new_password).1
        (CRUDUser.update_password db hashPw w new_password).2).2.is_verified =
      w.is_verified := by
  refine ⟨?_, rfl, ?_, rfl, rfl, rfl, rfl, rfl⟩
  · unfold AuthService.request_password_reset TokenService.create_reset_token
    rw [hfound]
  · unfold AuthService.reset_password TokenService.verify_reset_token
    rw [hvalid]
    rfl

/-- Witness for C9: a concrete inactive, unverified user requests and
completes a full password reset. -/
theorem C9_reset_flow_not_gated_witness :
    AuthService.request_password_reset [Fixtures.bobInactive] "bob@x.com"
      "r9" 100 =
      ((CRUDUser.set_reset_token [Fixtures.bobInactive] Fixtures.bobInactive
          "r9" Settings.PASSWORD_RESET_TOKEN_EXPIRE_HOURS 100).1,
       [Event.passwordReset 2 "bob@x.com" "Bob" "r9"
          Settings.FRONTEND_URL]) ∧
    AuthService.reset_password Fixtures.hashF [Fixtures.bobInactive] "rsec1"
      "NewPass99" 100 =
      .ok ((CRUDUser.clear_reset_token
              (CRUDUser.update_password [Fixtures.bobInactive] Fixtures.hashF
                Fixtures.bobInactive "NewPass99").1
              (CRUDUser.update_password [Fixtures.bobInactive] Fixtures.hashF
                Fixtures.bobInactive "NewPass99").2).1,
           [Event.passwordChanged 2 "bob@x.com" "Bob"]) :=
  ⟨(C9_reset_flow_not_gated Fixtures.hashF [Fixtures.bobInactive] "bob@x.com"
      "r9" "rsec1" "NewPass99" 100 Fixtures.bobInactive Fixtures.bobInactive
      (by decide) (by decide)).1,
   (C9_reset_flow_not_gated Fixtures.hashF [Fixtures.bobInactive] "bob@x.com"
      "r9" "rsec1" "NewPass99" 100 Fixtures.bobInactive Fixtures.bobInactive
      (by decide) (by decide)).2.2.1⟩

/-- Claim C10: updating a verified user's profile with a fresh, untaken
email sets is_verified to false, issues no verification secret (the pair
stays null), changes only the patched fields, and an update that keeps the
same email (or carries none) leaves is_verified unchanged. -/
theorem C10_email_change_frame (db : Db) (user : User)
    (patch patch2 : UserUpdate) (e : String)
    (hver : user.is_verified = true)
    (hvt : user.verification_token = none)
    (hve : user.verification_token_expires = none)
    (hpe : patch.email = some e) (hne : e ≠ user.email)
    (hfree : CRUDUser.get_by_email db e = none)
    (hpe2 : patch2.email = some user.email ∨ patch2.email = none) :
    (∃ u2, UserService.update_user_profile db user patch =
        .ok (commitUser db u2, u2) ∧
      u2.is_verified = false ∧
      u2.verification_token = none ∧
      u2.verification_token_expires = none ∧
      u2.reset_token = user.reset_token ∧
      u2.reset_token_expires = user.reset_token_expires ∧
      u2.password = user.password ∧
      u2.is_active = user.is_active ∧
      u2.role = user.role ∧
      u2.id = user.id ∧
      u2.email = e ∧
      (patch.name = none → u2.name = user.name) ∧
      (∀ n, patch.name = some n → u2.name = n)) ∧
    (∃ db3 u3, UserService.update_user_profile db user patch2 =
        .ok (db3, u3) ∧ u3.is_verified = user.is_verified) := by
  constructor
  · refine ⟨CRUDUser.applyUpdate { user with is_verified := false } patch,
      ?_, ?_, ?_, ?_, ?_, ?_, ?_, ?_, ?_, ?_, ?_, ?_, ?_⟩
    · unfold UserService.update_user_profile
      simp only [hpe]
      rw [if_pos hne]
      rw [hfree]
      rfl
    · obtain ⟨-, -, -, hverif, -⟩ :=
        applyUpdate_frame { user with is_verified := false } patch
      exact hverif
    · obtain ⟨-, -, -, -, -, hvtk, -⟩ :=
        applyUpdate_frame { user with is_verified := false } patch
      exact hvtk.trans hvt
    · obtain ⟨-, -, -, -, -, -, hvte, -⟩ :=
        applyUpdate_frame { user with is_verified := false } patch
      exact hvte.trans hve
    · obtain ⟨-, -, -, -, -, -, -, hrtk, -⟩ :=
        applyUpdate_frame { user with is_verified := false } patch
      exact hrtk
    · obtain ⟨-, -, -, -, -, -, -, -, hrte⟩ :=
        applyUpdate_frame { user with is_verified := false } patch
      exact hrte
    · obtain ⟨-, hpw, -⟩ :=
        applyUpdate_frame { user with is_verified := false } patch
      exact hpw
    · obtain ⟨-, -, -, -, hact, -⟩ :=
        applyUpdate_frame { user with is_verified := false } patch
      exact hact
    · obtain ⟨-, -, hrole, -⟩ :=
        applyUpdate_frame { user with is_verified := false } patch
      exact hrole
    · obtain ⟨hid, -⟩ :=
        applyUpdate_frame { user with is_verified := false } patch
      exact hid
    · exact (applyUpdate_email { user with is_verified := false } patch).2
        e hpe
    · intro hn
      exact (applyUpdate_name { user with is_verified := false } patch).1 hn
    · intro n hn
      exact (applyUpdate_name { user with is_verified := false } patch).2 n hn
  · rcases hpe2 with hpe2 | hpe2
    · refine ⟨commitUser db (CRUDUser.applyUpdate user patch2),
        CRUDUser.applyUpdate user patch2, ?_, ?_⟩
      · unfold UserService.update_user_profile
        simp only [hpe2]
        rw [if_neg (fun h => h rfl)]
        rfl
      · exact (applyUpdate_frame user patch2).2.2.2.1
    · refine ⟨commitUser db (CRUDUser.applyUpdate user patch2),
        CRUDUser.applyUpdate user patch2, ?_, ?_⟩
      · unfold UserService.update_user_profile
        simp only [hpe2]
        rfl
      · exact (applyUpdate_frame user patch2).2.2.2.1

/-- Witness for C10: a concrete verified user changes email to a free
address and is left unverified with no secret issued; a same-email patch
keeps the verified flag. -/
theorem C10_email_change_frame_witness :
    (∃ u2, UserService.update_user_profile [Fixtures.anaVerified]
        Fixtures.anaVerified { name := none, email := some "ana2@x.com" } =
        .ok (commitUser [Fixtures.anaVerified] u2, u2) ∧
      u2.is_verified = false ∧
      u2.verification_token = none ∧
      u2.verification_token_expires = none ∧
      u2.reset_token = Fixtures.anaVerified.reset_token ∧
      u2.reset_token_expires = Fixtures.anaVerified.reset_token_expires ∧
      u2.password = Fixtures.anaVerified.password ∧
      u2.is_active = Fixtures.anaVerified.is_active ∧
      u2.role = Fixtures.anaVerified.role ∧
      u2.id = Fixtures.anaVerified.id ∧
      u2.email = "ana2@x.com" ∧
      (({ name := none, email := some "ana2@x.com" } : UserUpdate).name =
          none → u2.name = Fixtures.anaVerified.name) ∧
      (∀ n, ({ name := none, email := some "ana2@x.com" } : UserUpdate).name =
          some n → u2.name = n)) ∧
    (∃ db3 u3, UserService.update_user_profile [Fixtures.anaVerified]
        Fixtures.anaVerified { name := some "Ana M", email := some "ana@x.com" } =
        .ok (db3, u3) ∧ u3.is_verified = Fixtures.anaVerified.is_verified) :=
  C10_email_change_frame [Fixtures.anaVerified] Fixtures.anaVerified
    { name := none, email := some "ana2@x.com" }
    { name := some "Ana M", email := some "ana@x.com" } "ana2@x.com"
    (by decide) (by decide) (by decide) rfl (by decide) (by decide)
    (Or.inl rfl)

theorem userInv_of_not_verified {u : User} (h : u.is_verified = false) :
    userInv u := by
  intro hv
  rw [h] at hv
  exact Bool.noConfusion hv

theorem userInv_applyUpdate {u : User} (p : UserUpdate) (h : userInv u) :
    userInv (CRUDUser.applyUpdate u p) := by
  intro hv
  obtain ⟨-, -, -, hverif, -, hvtk, hvte, -, -⟩ := applyUpdate_frame u p
  rw [hvtk, hvte]
  exact h (hverif.symm.trans hv)

/-- Claim C8: the invariant "is_verified=true implies the verification
secret and its expiry are null" holds after creation and is preserved by
every operation: registration creates an unverified user, successful
verification clears the secret pair in the same step that sets
is_verified, ResendVerification rejects already-verified users with the
already-verified error and preserves the invariant otherwise, a profile
email change sets is_verified back to false, and the reset-password
operations never touch the verification fields. -/
theorem C8_verified_implies_no_secret (hashPw : String → String) (db : Db)
    (newId : Nat) (vtoken rtoken s email pw : String) (now : Nat)
    (uc : UserCreate) (user : User) (patch : UserUpdate)
    (hInv : dbInv db) (hu : userInv user) :
    (∀ db2 u2 evs,
      AuthService.register_user hashPw db newId vtoken now uc =
        .ok (db2, u2, evs) → u2.is_verified = false ∧ dbInv db2) ∧
    (∀ db2 u2 evs,
      AuthService.verify_email db s now = .ok (db2, u2, evs) →
        u2.is_verified = true ∧ u2.verification_token = none ∧
        u2.verification_token_expires = none ∧ dbInv db2) ∧
    (∀ v, CRUDUser.get_by_email db email = some v → v.is_verified = true →
      AuthService.resend_verification_email db email vtoken now =
        .error ⟨400, "Este email ya ha sido verificado"⟩) ∧
    (∀ db2 evs,
      AuthService.resend_verification_email db email vtoken now =
        .ok (db2, evs) → dbInv db2) ∧
    (∀ db2 u2, UserService.update_user_profile db user patch =
        .ok (db2, u2) → userInv u2 ∧ dbInv db2) ∧
    dbInv (AuthService.request_password_reset db email rtoken now).1 ∧
    (∀ db2 evs, AuthService.reset_password hashPw db s pw now =
        .ok (db2, evs) → dbInv db2) := by
  refine ⟨?_, ?_, ?_, ?_, ?_, ?_, ?_⟩
  · intro db2 u2 evs h
    unfold AuthService.register_user at h
    cases hge : CRUDUser.get_by_email db uc.email with
    | some v => simp [hge] at h
    | none =>
      simp only [hge, CRUDUser.create, CRUDUser.set_verification_token,
        Except.ok.injEq, Prod.mk.injEq] at h
      obtain ⟨h1, h2, h3⟩ := h
      subst h1
      subst h2
      exact ⟨rfl, dbInv_commitUser
        (dbInv_append_singleton hInv (userInv_of_not_verified rfl))
        (userInv_of_not_verified rfl)⟩
  · intro db2 u2 evs h
    unfold AuthService.verify_email TokenService.verify_email_token at h
    cases hlu : CRUDUser.get_by_verification_token db s now with
    | none => simp [hlu] at h
    | some w =>
      cases hwv : w.is_verified with
      | true => simp [hlu, hwv] at h
      | false =>
        simp only [hlu, hwv, CRUDUser.verify_email, Bool.false_eq_true,
          if_false, Except.ok.injEq, Prod.mk.injEq] at h
        obtain ⟨h1, h2, h3⟩ := h
        subst h1
        subst h2
        exact ⟨rfl, rfl, rfl,
          dbInv_commitUser hInv (fun _ => ⟨rfl, rfl⟩)⟩
  · intro v hv hvv
    unfold AuthService.resend_verification_email
    rw [hv]
    simp [hvv]
  · intro db2 evs h
    unfold AuthService.resend_verification_email
      TokenService.resend_verification_token at h
    cases hge : CRUDUser.get_by_email db email with
    | none => simp [hge] at h
    | some w =>
      cases hwv : w.is_verified with
      | true => simp [hge, hwv] at h
      | false =>
        simp only [hge, hwv, CRUDUser.set_verification_token,
          Bool.false_eq_true, if_false, Except.ok.injEq, Prod.mk.injEq] at h
        obtain ⟨h1, h2⟩ := h
        subst h1
        exact dbInv_commitUser hInv (userInv_of_not_verified rfl)
  · intro db2 u2 h
    unfold UserService.update_user_profile at h
    cases hpe : patch.email with
    | none =>
      simp only [hpe, CRUDUser.update, Except.ok.injEq, Prod.mk.injEq] at h
      obtain ⟨h1, h2⟩ := h
      subst h1
      subst h2
      exact ⟨userInv_applyUpdate patch hu,
        dbInv_commitUser hInv (userInv_applyUpdate patch hu)⟩
    | some e2 =>
      by_cases hne2 : e2 ≠ user.email
      · simp only [hpe] at h
        rw [if_pos hne2] at h
        cases hge : CRUDUser.get_by_email db e2 with
        | some v => simp [hge] at h
        | none =>
          simp only [hge, CRUDUser.update, Except.ok.injEq,
            Prod.mk.injEq] at h
          obtain ⟨h1, h2⟩ := h
          subst h1
          subst h2
          refine ⟨userInv_of_not_verified ?_, ?_⟩
          · exact (applyUpdate_frame
              { user with is_verified := false } patch).2.2.2.1
          · exact dbInv_commitUser hInv (userInv_of_not_verified
              ((applyUpdate_frame
                { user with is_verified := false } patch).2.2.2.1))
      · simp only [hpe] at h
        rw [if_neg hne2] at h
        simp only [CRUDUser.update, Except.ok.injEq, Prod.mk.injEq] at h
        obtain ⟨h1, h2⟩ := h
        subst h1
        subst h2
        exact ⟨userInv_applyUpdate patch hu,
          dbInv_commitUser hInv (userInv_applyUpdate patch hu)⟩
  · cases hge : CRUDUser.get_by_email db email with
    | none =>
      simp only [AuthService.request_password_reset, hge]
      exact hInv
    | some w =>
      obtain ⟨hmem, -⟩ := get_by_email_some hge
      simp only [AuthService.request_password_reset,
        TokenService.create_reset_token, CRUDUser.set_reset_token, hge]
      exact dbInv_commitUser hInv (fun hv => hInv w hmem hv)
  · intro db2 evs h
    unfold AuthService.reset_password TokenService.verify_reset_token at h
    cases hlu : CRUDUser.get_by_reset_token db s now with
    | none => simp [hlu] at h
    | some w =>
      obtain ⟨hmem, -⟩ := get_by_reset_token_some hlu
      simp only [hlu, CRUDUser.update_password, CRUDUser.clear_reset_token,
        Except.ok.injEq, Prod.mk.injEq] at h
      obtain ⟨h1, h2⟩ := h
      subst h1
      exact dbInv_commitUser
        (dbInv_commitUser hInv (fun hv => hInv w hmem hv))
        (fun hv => hInv w hmem hv)

/-- Witness for C8: the invariant conclusions evaluated on a concrete
verified table. -/
theorem C8_verified_implies_no_secret_witness :
    dbInv (AuthService.request_password_reset [Fixtures.anaVerified]
      "ana@x.com" "r2" 100).1 :=
  (C8_verified_implies_no_secret Fixtures.hashF [Fixtures.anaVerified] 7 "v7"
    "r2" "s7" "ana@x.com" "Pw123456" 100
    { email := "new@x.com", name := "New", password := "Pw123456",
      role := .usuario }
    Fixtures.anaVerified { name := none, email := none } (by decide)
    (by decide)).2.2.2.2.2.1
